import Mathlib

/-!
Verification of the SovaCore chat-proxy service (src/api/main.py).

The service is a single-endpoint HTTP proxy: it accepts a chat message plus
the conversation history, translates the history into the LLM provider
wire shape, invokes the external LLM, and translates the reply and the
updated history back.  The external provider is opaque; it is modelled
here as a function parameter (`Upstream`) whose result carries the fields
the handler inspects: the candidate list with its finish reason, the
outcome of reading the quick text accessor (which may raise), and the
session history after the exchange.
-/

namespace Sova

/-- Wire shape of one text part of a turn (pydantic `HistoryPart`). -/
structure HistoryPart where
  text : String
deriving DecidableEq, Repr

/-- Wire shape of one conversation turn (pydantic `HistoryEntry`).
The source declares `role : str` with no further restriction. -/
structure HistoryEntry where
  role : String
  parts : List HistoryPart
deriving DecidableEq, Repr

/-- Inbound body of POST /chat (pydantic `ChatRequest`); `history`
defaults to the empty list. -/
structure ChatRequest where
  message : String
  history : List HistoryEntry := []
deriving DecidableEq, Repr

/-- A part in the provider native shape.  A part either carries a `text`
attribute or it does not (e.g. inline binary data). -/
inductive GenaiPart where
  | text (t : String)
  | data
deriving DecidableEq, Repr

/-- A turn in the provider native shape: a role and a list of parts. -/
structure GenaiContent where
  role : String
  parts : List GenaiPart
deriving DecidableEq, Repr

/-- Inbound translation of one turn (main.py lines 122-128): each wire
part `p` becomes the native dict with a text attribute holding `p.text`. -/
def toGenaiContent (e : HistoryEntry) : GenaiContent :=
  { role := e.role, parts := e.parts.map (fun p => GenaiPart.text p.text) }

/-- Inbound translation of the whole history (main.py lines 122-128). -/
def toGenaiHistory (h : List HistoryEntry) : List GenaiContent :=
  h.map toGenaiContent

/-- The body of the outbound comprehension (main.py line 147): a native
part passes the hasattr filter and yields a wire part exactly when it
carries a text attribute. -/
def textOf : GenaiPart → Option HistoryPart
  | GenaiPart.text t => some { text := t }
  | GenaiPart.data => none

/-- Outbound translation of one turn (main.py lines 145-148): keep the
role, keep only the parts that carry a text attribute. -/
def fromGenaiContent (c : GenaiContent) : HistoryEntry :=
  { role := c.role, parts := c.parts.filterMap textOf }

/-- Outbound translation of the whole session history
(main.py lines 145-148). -/
def fromGenaiHistory (h : List GenaiContent) : List HistoryEntry :=
  h.map fromGenaiContent

/-- One candidate of the provider response; the handler reads only its
finish reason (an enum, embedded as a Nat). -/
structure Candidate where
  finish_reason : Nat
deriving DecidableEq, Repr

/-- The provider response as observed by the handler: the candidate
list, the outcome of reading `response.text` (an accessor that may
raise, hence `Except`), and the session history after the exchange
(`chat_session.history`). -/
structure UpstreamResult where
  candidates : List Candidate
  text : Except String String
  sessionHistory : List GenaiContent
deriving Repr

/-- The opaque external LLM call: given the translated history and the
new message it either raises (network failure, quota, malformed
response) or yields a response. -/
def Upstream : Type :=
  List GenaiContent → String → Except String UpstreamResult

/-- The guard of main.py line 136: `response.candidates and
response.candidates[0].finish_reason == 4`.  An empty Python list is
falsy, so the guard is false when there are no candidates. -/
def safetyBlocked (r : UpstreamResult) : Bool :=
  match r.candidates with
  | [] => false
  | c :: _ => c.finish_reason == 4

/-- The fixed refusal string returned when the safety branch fires
(main.py line 138). -/
def safetyRefusalMessage : String :=
  "I\x27m sorry, I cannot respond to that query due to safety concerns. Please try rephrasing your question."

/-- The detail string of the 500 response (main.py line 156):
`f"Internal server error: {e}"`. -/
def internalErrorDetail (e : String) : String :=
  "Internal server error: " ++ e

/-- Result of one invocation of the chat handler: a 200 body
`{response, history}` or an HTTPException with a status and detail. -/
inductive HandlerResult where
  | ok (response : String) (history : List HistoryEntry)
  | httpError (status : Nat) (detail : String)
deriving DecidableEq, Repr

/-- The POST /chat handler (main.py lines 116-156).  The whole body sits
in one try/except: any raise from the upstream call or from reading
`response.text` becomes a 500 with the detail embedding the cause.  When
the safety guard fires the original inbound history is echoed; otherwise
the session history is translated back and returned with the text. -/
def chat_with_sova (upstream : Upstream) (request : ChatRequest) : HandlerResult :=
  match upstream (toGenaiHistory request.history) request.message with
  | Except.error e => HandlerResult.httpError 500 (internalErrorDetail e)
  | Except.ok response =>
    if safetyBlocked response then
      HandlerResult.ok safetyRefusalMessage request.history
    else
      match response.text with
      | Except.error e => HandlerResult.httpError 500 (internalErrorDetail e)
      | Except.ok t => HandlerResult.ok t (fromGenaiHistory response.sessionHistory)

/-- Outcome of module initialisation (main.py lines 26-32): either the
process exits or it proceeds to serve with the configured key. -/
inductive StartupResult where
  | exited (code : Nat)
  | serving (apiKey : String)
deriving DecidableEq, Repr

/-- Python truthiness of `not GEMINI_API_KEY`: true when `os.getenv`
returned None (variable absent) or the empty string. -/
def missingKey : Option String → Bool
  | none => true
  | some s => s.isEmpty

/-- The startup credential check (main.py lines 26-32): `exit(1)` when
the variable is absent or empty, otherwise the process serves. -/
def startup (geminiApiKeyEnv : Option String) : StartupResult :=
  if missingKey geminiApiKeyEnv then StartupResult.exited 1
  else StartupResult.serving (geminiApiKeyEnv.getD "")

/-- The FastAPI app version (main.py line 14). -/
def appVersion : String := "1.0.0"

/-- The configured model name (main.py line 94). -/
def modelName : String := "gemini-2.5-flash"

/-- The static message of the health check (main.py line 164). -/
def rootMessage : String :=
  "Sova Chatbot API is running. Use the /chat endpoint to interact."

/-- Body of the GET / response (main.py lines 158-167). -/
structure RootResponse where
  message : String
  version : String
  model : String
deriving DecidableEq, Repr

/-- The GET / handler (main.py lines 158-167): a constant; it takes no
upstream and makes no outbound call.  FastAPI returns status 200 for a
plain return, hence the paired status. -/
def root : Nat × RootResponse :=
  (200, { message := rootMessage, version := appVersion, model := modelName })

/-- Round trip of a single turn: the outbound translation undoes the
inbound one. -/
theorem fromGenaiContent_toGenaiContent (e : HistoryEntry) :
    fromGenaiContent (toGenaiContent e) = e := by
  cases e with
  | mk role parts =>
    simp only [fromGenaiContent, toGenaiContent, List.filterMap_map]
    have h : (textOf ∘ fun p => GenaiPart.text p.text) = some := by
      funext p; cases p; rfl
    rw [h, List.filterMap_some]

/-- Round trip of a whole history: outbound after inbound is the
identity. -/
theorem fromGenaiHistory_toGenaiHistory (h : List HistoryEntry) :
    fromGenaiHistory (toGenaiHistory h) = h := by
  induction h with
  | nil => rfl
  | cons e rest ih =>
    simp only [fromGenaiHistory, toGenaiHistory, List.map_cons] at *
    rw [fromGenaiContent_toGenaiContent, ih]

/-- Reduction of the handler on a successful upstream call. -/
theorem chat_with_sova_ok (u : Upstream) (req : ChatRequest) (r : UpstreamResult)
    (hcall : u (toGenaiHistory req.history) req.message = Except.ok r) :
    chat_with_sova u req =
      if safetyBlocked r then
        HandlerResult.ok safetyRefusalMessage req.history
      else
        match r.text with
        | Except.error e => HandlerResult.httpError 500 (internalErrorDetail e)
        | Except.ok t => HandlerResult.ok t (fromGenaiHistory r.sessionHistory) := by
  unfold chat_with_sova
  rw [hcall]

/-- Reduction of the handler on a raising upstream call. -/
theorem chat_with_sova_error (u : Upstream) (req : ChatRequest) (e : String)
    (hcall : u (toGenaiHistory req.history) req.message = Except.error e) :
    chat_with_sova u req = HandlerResult.httpError 500 (internalErrorDetail e) := by
  unfold chat_with_sova
  rw [hcall]

/-- The 500 detail string is never empty. -/
theorem internalErrorDetail_ne_empty (e : String) : internalErrorDetail e ≠ "" := by
  intro hcontra
  have hlen := congrArg String.length hcontra
  simp [internalErrorDetail, String.length_append] at hlen
  exact absurd hlen.1 (by decide)

/-- C3: translating a ConversationTurn sequence to the provider native
turn shape and translating the result back yields the original
sequence: roles, text-part order and text content are preserved
exactly. -/
theorem C3_history_round_trip (h : List HistoryEntry) :
    fromGenaiHistory (toGenaiHistory h) = h :=
  fromGenaiHistory_toGenaiHistory h

/-- C8: GET / returns status 200 with a descriptor whose message,
version and model fields are non-empty; the handler is a constant that
takes no upstream, hence makes no outbound call. -/
theorem C8_root_static :
    root.1 = 200 ∧ root.2.message ≠ "" ∧ root.2.version ≠ "" ∧ root.2.model ≠ "" := by
  refine ⟨rfl, ?_, ?_, ?_⟩ <;> decide

/-- C5: when the credential variable is absent at startup, the process
exits with status 1 (non-zero) and never reaches the serving state. -/
theorem C5_missing_credential (env : Option String) (habsent : env = none) :
    startup env = StartupResult.exited 1
    ∧ (1 : Nat) ≠ 0
    ∧ ∀ k, startup env ≠ StartupResult.serving k := by
  subst habsent
  refine ⟨rfl, by decide, fun k hcontra => ?_⟩
  simp [startup, missingKey] at hcontra

/-- C5 witness: the theorem evaluated with the variable absent. -/
theorem C5_missing_credential_witness :
    startup none = StartupResult.exited 1
    ∧ (1 : Nat) ≠ 0
    ∧ ∀ k, startup none ≠ StartupResult.serving k :=
  C5_missing_credential none rfl

/-- C2: whenever the upstream response trips the safety guard, the
handler returns the fixed refusal string and echoes the inbound history
unchanged, appending nothing. -/
theorem C2_safety_block_echoes_history (u : Upstream) (req : ChatRequest)
    (r : UpstreamResult)
    (hcall : u (toGenaiHistory req.history) req.message = Except.ok r)
    (hblocked : safetyBlocked r = true) :
    chat_with_sova u req = HandlerResult.ok safetyRefusalMessage req.history := by
  rw [chat_with_sova_ok u req r hcall, hblocked]
  simp

/-- Concrete inbound request used to exercise the safety branch. -/
def reqC2 : ChatRequest :=
  { message := "hello", history := [{ role := "user", parts := [{ text := "hi" }] }] }

/-- Concrete upstream response whose first candidate has finish reason 4. -/
def rC2 : UpstreamResult :=
  { candidates := [{ finish_reason := 4 }], text := Except.ok "blocked",
    sessionHistory := [] }

/-- Concrete upstream returning the blocked response. -/
def uC2 : Upstream := fun _ _ => Except.ok rC2

/-- C2 witness: the theorem evaluated on a concrete blocked exchange. -/
theorem C2_safety_block_witness :
    chat_with_sova uC2 reqC2 = HandlerResult.ok safetyRefusalMessage reqC2.history :=
  C2_safety_block_echoes_history uC2 reqC2 rC2 rfl rfl

/-- C4: any raise from the outbound upstream call is caught at the
single handler boundary and surfaced as HTTP 500 with a non-empty
detail embedding the cause; the handler consults the upstream at one
call point only, so a second upstream agreeing there yields the same
outcome (no retry with different arguments, no partial result). -/
theorem C4_upstream_error_surfaced (u : Upstream) (req : ChatRequest) (e : String)
    (hcall : u (toGenaiHistory req.history) req.message = Except.error e) :
    chat_with_sova u req = HandlerResult.httpError 500 (internalErrorDetail e)
    ∧ internalErrorDetail e ≠ ""
    ∧ (∃ pre, internalErrorDetail e = pre ++ e)
    ∧ ∀ u2 : Upstream, u2 (toGenaiHistory req.history) req.message = Except.error e →
        chat_with_sova u2 req = chat_with_sova u req := by
  refine ⟨chat_with_sova_error u req e hcall, internalErrorDetail_ne_empty e,
    ⟨"Internal server error: ", rfl⟩, fun u2 h2 => ?_⟩
  rw [chat_with_sova_error u2 req e h2, chat_with_sova_error u req e hcall]

/-- Concrete request for the upstream-failure scenario. -/
def reqC4 : ChatRequest := { message := "hello", history := [] }

/-- Concrete upstream that raises. -/
def uC4 : Upstream := fun _ _ => Except.error "quota exceeded"

/-- C4 witness: the theorem evaluated on a concrete raising upstream. -/
theorem C4_upstream_error_witness :
    chat_with_sova uC4 reqC4 = HandlerResult.httpError 500 (internalErrorDetail "quota exceeded")
    ∧ internalErrorDetail "quota exceeded" ≠ ""
    ∧ (∃ pre, internalErrorDetail "quota exceeded" = pre ++ "quota exceeded")
    ∧ ∀ u2 : Upstream,
        u2 (toGenaiHistory reqC4.history) reqC4.message = Except.error "quota exceeded" →
        chat_with_sova u2 reqC4 = chat_with_sova uC4 reqC4 :=
  C4_upstream_error_surfaced uC4 reqC4 "quota exceeded" rfl

/-- C10: the outbound translation of one session turn keeps the role,
keeps exactly the parts carrying a text attribute (never more parts
than the session held), and yields an empty parts list when no part
carries one. -/
theorem C10_nontext_parts_dropped (role : String) (parts : List GenaiPart) :
    (fromGenaiContent { role := role, parts := parts }).role = role
    ∧ (fromGenaiContent { role := role, parts := parts }).parts.length ≤ parts.length
    ∧ ((∀ p ∈ parts, textOf p = none) →
        fromGenaiContent { role := role, parts := parts } = { role := role, parts := [] }) := by
  refine ⟨rfl, ?_, fun hall => ?_⟩
  · exact List.length_filterMap_le textOf parts
  · simp only [fromGenaiContent, HistoryEntry.mk.injEq, true_and]
    exact List.filterMap_eq_nil_iff.mpr hall

/-- C10 witness: the theorem evaluated on a turn holding one text part
between two parts lacking a text attribute. -/
theorem C10_nontext_parts_witness :
    (fromGenaiContent { role := "model", parts := [GenaiPart.data, GenaiPart.text "hi", GenaiPart.data] }).role = "model"
    ∧ (fromGenaiContent { role := "model", parts := [GenaiPart.data, GenaiPart.text "hi", GenaiPart.data] }).parts.length ≤ 3
    ∧ ((∀ p ∈ [GenaiPart.data, GenaiPart.text "hi", GenaiPart.data], textOf p = none) →
        fromGenaiContent { role := "model", parts := [GenaiPart.data, GenaiPart.text "hi", GenaiPart.data] } = { role := "model", parts := [] }) :=
  C10_nontext_parts_dropped "model" [GenaiPart.data, GenaiPart.text "hi", GenaiPart.data]

/-- C1: on a successful upstream exchange that is not suppressed by the
safety guard, with the session history holding the seeded history plus
the user turn and the model reply (the provider session contract), the
handler returns the non-empty upstream text together with the inbound
history plus exactly those two turns: the user turn text matches the
inbound message, the reply turn has role model, and the inbound history
is a prefix of the outbound one. -/
theorem C1_success_appends_two_turns (u : Upstream) (req : ChatRequest)
    (r : UpstreamResult) (t : String) (replyParts : List GenaiPart)
    (_hmsg : req.message ≠ "")
    (hcall : u (toGenaiHistory req.history) req.message = Except.ok r)
    (hnotBlocked : safetyBlocked r = false)
    (htext : r.text = Except.ok t)
    (htne : t ≠ "")
    (hsession : r.sessionHistory =
      toGenaiHistory req.history
        ++ [{ role := "user", parts := [GenaiPart.text req.message] },
            { role := "model", parts := replyParts }]) :
    chat_with_sova u req =
      HandlerResult.ok t
        (req.history
          ++ [{ role := "user", parts := [{ text := req.message }] },
              { role := "model", parts := replyParts.filterMap textOf }])
    ∧ t ≠ ""
    ∧ ((req.history
        ++ [{ role := "user", parts := [{ text := req.message }] },
            { role := "model", parts := replyParts.filterMap textOf }] : List HistoryEntry)).length
        = req.history.length + 2
    ∧ ((req.history
        ++ [{ role := "user", parts := [{ text := req.message }] },
            { role := "model", parts := replyParts.filterMap textOf }] : List HistoryEntry)).take req.history.length
        = req.history := by
  have hmain : chat_with_sova u req = HandlerResult.ok t (fromGenaiHistory r.sessionHistory) := by
    rw [chat_with_sova_ok u req r hcall, hnotBlocked, htext]
    simp
  rw [hsession] at hmain
  have hsplit : fromGenaiHistory
      (toGenaiHistory req.history
        ++ [{ role := "user", parts := [GenaiPart.text req.message] },
            { role := "model", parts := replyParts }]) =
      req.history
        ++ [{ role := "user", parts := [{ text := req.message }] },
            { role := "model", parts := replyParts.filterMap textOf }] := by
    simp only [fromGenaiHistory, List.map_append]
    rw [show List.map fromGenaiContent (toGenaiHistory req.history) =
        fromGenaiHistory (toGenaiHistory req.history) from rfl,
      fromGenaiHistory_toGenaiHistory]
    rfl
  rw [hsplit] at hmain
  refine ⟨hmain, htne, by simp, List.take_left req.history _⟩

/-- Concrete prior history for the success scenario. -/
def histC1 : List HistoryEntry :=
  [{ role := "user", parts := [{ text := "hi" }] },
   { role := "model", parts := [{ text := "Hello! How can I help?" }] }]

/-- Concrete inbound request for the success scenario. -/
def reqC1 : ChatRequest := { message := "What services do you offer?", history := histC1 }

/-- Concrete model reply parts for the success scenario. -/
def replyC1 : List GenaiPart := [GenaiPart.text "We deploy autonomous AI agents."]

/-- Concrete successful upstream response: one candidate finishing
normally, readable text, and the session history extended by the two
new turns. -/
def rC1 : UpstreamResult :=
  { candidates := [{ finish_reason := 1 }],
    text := Except.ok "We deploy autonomous AI agents.",
    sessionHistory :=
      toGenaiHistory reqC1.history
        ++ [{ role := "user", parts := [GenaiPart.text reqC1.message] },
            { role := "model", parts := replyC1 }] }

/-- Concrete upstream returning the successful response. -/
def uC1 : Upstream := fun _ _ => Except.ok rC1

/-- C1 witness: the theorem evaluated on a concrete successful
exchange over a two-turn prior history. -/
theorem C1_success_witness :
    chat_with_sova uC1 reqC1 =
      HandlerResult.ok "We deploy autonomous AI agents."
        (reqC1.history
          ++ [{ role := "user", parts := [{ text := reqC1.message }] },
              { role := "model", parts := replyC1.filterMap textOf }])
    ∧ "We deploy autonomous AI agents." ≠ ""
    ∧ ((reqC1.history
        ++ [{ role := "user", parts := [{ text := reqC1.message }] },
            { role := "model", parts := replyC1.filterMap textOf }] : List HistoryEntry)).length
        = reqC1.history.length + 2
    ∧ ((reqC1.history
        ++ [{ role := "user", parts := [{ text := reqC1.message }] },
            { role := "model", parts := replyC1.filterMap textOf }] : List HistoryEntry)).take reqC1.history.length
        = reqC1.history :=
  C1_success_appends_two_turns uC1 reqC1 rC1 "We deploy autonomous AI agents." replyC1
    (by decide) rfl rfl rfl (by decide) rfl

/-- C9: an empty candidates list is falsy in Python, so the safety
branch is not taken; when reading the text accessor then raises, the
caller receives the 500 error, never the fixed refusal with unchanged
history. -/
theorem C9_empty_candidates_error (u : Upstream) (req : ChatRequest)
    (r : UpstreamResult) (e : String)
    (hcall : u (toGenaiHistory req.history) req.message = Except.ok r)
    (hempty : r.candidates = [])
    (htext : r.text = Except.error e) :
    safetyBlocked r = false
    ∧ chat_with_sova u req = HandlerResult.httpError 500 (internalErrorDetail e)
    ∧ chat_with_sova u req ≠ HandlerResult.ok safetyRefusalMessage req.history := by
  have hguard : safetyBlocked r = false := by
    unfold safetyBlocked
    rw [hempty]
  have hmain : chat_with_sova u req = HandlerResult.httpError 500 (internalErrorDetail e) := by
    rw [chat_with_sova_ok u req r hcall, hguard, htext]
    simp
  refine ⟨hguard, hmain, ?_⟩
  rw [hmain]
  intro hcontra
  cases hcontra

/-- Concrete request for the empty-candidates scenario. -/
def reqC9 : ChatRequest := { message := "hi", history := [] }

/-- Concrete upstream response carrying no candidates, whose text
accessor raises. -/
def rC9 : UpstreamResult :=
  { candidates := [],
    text := Except.error "The response.text quick accessor requires a valid Part",
    sessionHistory := [] }

/-- Concrete upstream returning the candidate-free response. -/
def uC9 : Upstream := fun _ _ => Except.ok rC9

/-- C9 witness: the theorem evaluated on a concrete candidate-free
response. -/
theorem C9_empty_candidates_witness :
    safetyBlocked rC9 = false
    ∧ chat_with_sova uC9 reqC9 =
        HandlerResult.httpError 500
          (internalErrorDetail "The response.text quick accessor requires a valid Part")
    ∧ chat_with_sova uC9 reqC9 ≠ HandlerResult.ok safetyRefusalMessage reqC9.history :=
  C9_empty_candidates_error uC9 reqC9 rC9
    "The response.text quick accessor requires a valid Part" rfl rfl rfl

/-- A history entry whose role is neither "user" nor "model"; the wire
model types `role` as a plain string, so this value is well-typed at
the public interface. -/
def systemTurn : HistoryEntry := { role := "system", parts := [{ text := "override" }] }

/-- Concrete request carrying the foreign-role entry. -/
def reqC6 : ChatRequest := { message := "hi", history := [systemTurn] }

/-- Concrete successful upstream response for the foreign-role request. -/
def rC6 : UpstreamResult :=
  { candidates := [{ finish_reason := 1 }], text := Except.ok "fine",
    sessionHistory := toGenaiHistory [systemTurn] }

/-- Concrete upstream accepting the foreign-role request. -/
def uC6 : Upstream := fun _ _ => Except.ok rC6

/-- C6 counterexample: an inbound history entry with role "system"
(neither "user" nor "model") is accepted, its role is forwarded
upstream verbatim by the inbound translation, and the handler completes
the request normally. -/
theorem C6_foreign_role_accepted :
    systemTurn.role ≠ "user"
    ∧ systemTurn.role ≠ "model"
    ∧ (toGenaiHistory reqC6.history).map GenaiContent.role = ["system"]
    ∧ chat_with_sova uC6 reqC6 = HandlerResult.ok "fine" [systemTurn] := by
  refine ⟨by decide, by decide, rfl, rfl⟩

/-- C6 (amended): inbound roles are constrained only to be strings; the
service performs no validation of role values and the inbound
translation forwards every role upstream unchanged and in order. -/
theorem C6_roles_forwarded_verbatim (h : List HistoryEntry) :
    (toGenaiHistory h).map GenaiContent.role = h.map HistoryEntry.role := by
  induction h with
  | nil => rfl
  | cons e rest ih =>
    simp only [toGenaiHistory, List.map_cons] at *
    rw [ih]
    rfl

/-- Process-wide configuration created once at module initialisation
(main.py lines 26-96): the credential, the model name and the app
version.  The handler body contains no assignment to any of it. -/
structure ServerState where
  apiKey : String
  modelName : String
  version : String
deriving DecidableEq, Repr

/-- The state as built at startup from a configured key. -/
def initialServerState (apiKey : String) : ServerState :=
  { apiKey := apiKey, modelName := modelName, version := appVersion }

/-- One request handled under the ambient server state: the handler
(main.py lines 116-156) reads the globals only through the model
session (folded into the upstream) and writes none of them, so the
state passes through unchanged. -/
def chatStep (s : ServerState) (u : Upstream) (req : ChatRequest) :
    HandlerResult × ServerState :=
  (chat_with_sova u req, s)

/-- Sequential processing of a batch of requests, threading the server
state from one request to the next. -/
def processSeq (u : Upstream) (s : ServerState) : List ChatRequest → List HandlerResult × ServerState
  | [] => ([], s)
  | req :: rest =>
    let out := chatStep s u req
    let outs := processSeq u out.2 rest
    (out.1 :: outs.1, outs.2)

/-- C7: handling requests mutates no state shared across requests: for
a fixed configuration and fixed upstream, threading the state through
any batch returns it unchanged, and each result equals the handler
applied to that request alone against the initial state, so the
response to a request is determined solely by that request and
processing one request does not change the result of any other. -/
theorem C7_no_shared_mutable_state (u : Upstream) (s : ServerState)
    (reqs : List ChatRequest) :
    processSeq u s reqs = (reqs.map (fun req => (chatStep s u req).1), s) := by
  induction reqs with
  | nil => rfl
  | cons req rest ih =>
    simp only [processSeq, chatStep, List.map_cons]
    rw [ih]
    rfl

end Sova
